import Mathlib

/-!
Verification development for the BOM-builder repository
(`parts_bom_streamlit_app.py`).

The file shallow-embeds the data model and the operations the claims are
about:

* the BOM pricing block of the `TAB_BOM` tab (source lines 504-517), which
  joins each BOM line item with the pricing fields of its part and computes a
  `displayUnitPrice`, an `amount` per line, and a `total`;
* `delete_part` together with the sqlite connection discipline of
  `get_conn` (source lines 83-84 and 212-215);
* the dedup filter of `insert_parts` (source lines 185-193).

Numbers are modelled as exact rationals (`ℚ`); SQL `NULL` / pandas `NaN`
entries of nullable numeric columns are modelled as `Option ℚ`.
-/

namespace PartsBom

/-- Lowercasing as performed by pandas `.str.lower()` (and Python
`str.lower`) on the ASCII strings involved: each character is lowercased.
Defined by structural recursion over the character list so that it
evaluates by `decide`. -/
def lowerStr (s : String) : String := ⟨s.data.map Char.toLower⟩

/-- Round-half-to-even to an integer, the rounding used by
numpy/pandas `.round` (bankers rounding). -/
def roundHalfEven (q : ℚ) : ℤ :=
  if q - ⌊q⌋ < 1/2 then ⌊q⌋
  else if 1/2 < q - ⌊q⌋ then ⌊q⌋ + 1
  else if ⌊q⌋ % 2 = 0 then ⌊q⌋ else ⌊q⌋ + 1

/-- pandas `Series.round(2)`: round-half-to-even at two decimal places. -/
def round2 (q : ℚ) : ℚ := (roundHalfEven (q * 100) : ℚ) / 100

/-- Python `int(x)` on a float: truncation toward zero. -/
def pyInt (q : ℚ) : ℤ := if 0 ≤ q then ⌊q⌋ else -⌊-q⌋

/-- One row of the dataframe returned by `list_bom_items`, restricted to the
columns the pricing block reads: the `pricingModel` of the part (a `TEXT`
column), the three nullable `REAL` rate columns, and the `qty` of the line.
(`pricingModel` `NULL`s surface through `.astype(str)` as the unrecognized
string `nan`, so a plain `String` field covers them.) -/
structure LineItem where
  pricingModel : String
  unitPrice : Option ℚ
  unitPricePerKWh : Option ℚ
  unitPricePerYear : Option ℚ
  qty : Option ℚ
deriving DecidableEq, Repr

/-- The three project-level widget values read by the pricing block:
`proj_kwh` (対象容量 kWh), `proj_years` (契約年数), `override_rate`
(EMS等のkWh単価の一時上書き). All are non-negative in the UI
(`min_value=0.0`), but the model does not assume it. -/
structure ProjectParams where
  proj_kwh : ℚ
  proj_years : ℚ
  override_rate : ℚ
deriving DecidableEq, Repr

/-- The `displayUnitPrice` column value for one row, source lines 505-514,
on the run that completes (`override_rate ≤ 0`; see `priceBOM` for the
other run):

* line 505 initializes the column to `unitPrice`;
* lines 507-511: rows with `lower(pricingModel) == "per_kwh"` and
  `proj_kwh > 0` are overwritten with `(unitPricePerKWh * proj_kwh).round(2)`
  (a `NULL` rate yields `NaN * proj_kwh = NaN`, i.e. the entry becomes null);
* lines 513-514: rows with `lower(pricingModel) == "per_year"` and
  `proj_years > 0` are overwritten with
  `(unitPricePerYear * proj_years).round(2)`.

The two masks are disjoint, so sequential overwriting equals this
if/else-if. -/
def displayUnitPrice (p : ProjectParams) (it : LineItem) : Option ℚ :=
  if lowerStr it.pricingModel = "per_kwh" ∧ 0 < p.proj_kwh then
    it.unitPricePerKWh.map (fun r => round2 (r * p.proj_kwh))
  else if lowerStr it.pricingModel = "per_year" ∧ 0 < p.proj_years then
    it.unitPricePerYear.map (fun r => round2 (r * p.proj_years))
  else
    it.unitPrice

/-- The integer value of the `amount` cell of one row, source line 516:
`(df["displayUnitPrice"].fillna(0) * df["qty"].fillna(0)).round(0)`. -/
def amountZ (p : ProjectParams) (it : LineItem) : ℤ :=
  roundHalfEven ((displayUnitPrice p it).getD 0 * it.qty.getD 0)

/-- One priced output row: the `displayUnitPrice` and `amount` columns of the row
(the `amount` column holds floats; its values are the integers
produced by `.round(0)`). -/
structure PricedItem where
  displayUnitPrice : Option ℚ
  amount : ℚ
deriving DecidableEq, Repr

/-- The priced row for one line item. -/
def priceItem (p : ProjectParams) (it : LineItem) : PricedItem :=
  { displayUnitPrice := displayUnitPrice p it, amount := (amountZ p it : ℚ) }

/-- The priced rows of the whole dataframe, in input order. -/
def priceLines (p : ProjectParams) (items : List LineItem) : List PricedItem :=
  items.map (priceItem p)

/-- Source line 517: `total = int(df["amount"].sum())`. -/
def bomTotal (p : ProjectParams) (items : List LineItem) : ℤ :=
  pyInt (((priceLines p items).map PricedItem.amount).sum)

/-- The exception text of Python
`AttributeError` (float object has no attribute round). -/
def floatRoundError : String :=
  "AttributeError: float object has no attribute round"

/-- The pricing block, source lines 504-517, as run on a dataframe of BOM
line items. When `override_rate > 0`, line 510 rebinds `base_rate` from the
`unitPricePerKWh` Series to the scalar Python float `override_rate`, so the
expression `(base_rate * proj_kwh).round(2)` at line 511 calls `.round` on
a plain Python float and raises `AttributeError` before anything is
assigned; the whole computation aborts (regardless of the row contents,
since line 511 runs unconditionally once the `unitPricePerKWh` column is
present — and `list_bom_items` always selects it). Otherwise every row is
priced and the total is computed. -/
def priceBOM (p : ProjectParams) (items : List LineItem) :
    Except String (List PricedItem × ℤ) :=
  if 0 < p.override_rate then Except.error floatRoundError
  else Except.ok (priceLines p items, bomTotal p items)

/-- A row of the `parts` table (the columns relevant to deletion). -/
structure Part where
  id : ℕ
  partNo : String
  description : String
deriving DecidableEq, Repr

/-- A row of the `bom_items` table. -/
structure BomItem where
  id : ℕ
  bomId : ℕ
  partId : ℕ
  qty : ℚ
deriving DecidableEq, Repr

/-- The two tables of the store that `delete_part` can touch. -/
structure DBState where
  parts : List Part
  bom_items : List BomItem
deriving DecidableEq, Repr

/-- `delete_part` (source lines 212-215) runs
`DELETE FROM parts WHERE id = ?` on a connection obtained from `get_conn`
(source lines 83-84). `get_conn` is a bare `sqlite3.connect` and never
issues `PRAGMA foreign_keys = ON`; sqlite leaves foreign-key enforcement
OFF by default, so the `ON DELETE CASCADE` clause declared on
`bom_items.partId` is not enforced: only the `parts` row is removed and
`bom_items` is untouched. -/
def delete_part (db : DBState) (part_id : ℕ) : DBState :=
  { db with parts := db.parts.filter (fun p => p.id != part_id) }

/-- A row of an ingestion batch, restricted to the two columns
`insert_parts` uses for dedup. -/
structure PartRow where
  partNo : String
  description : String
deriving DecidableEq, Repr

/-- The dedup key built at source lines 187-188:
`partNo.str.lower() + "|" + description.str.lower()`. -/
def dedupKey (r : PartRow) : String :=
  lowerStr r.partNo ++ "|" ++ lowerStr r.description

/-- Case-insensitive occurrence of a `(partNo, description)` pair in a list
of rows. -/
def pairOccursCI (r : PartRow) (rows : List PartRow) : Bool :=
  rows.any (fun e =>
    lowerStr e.partNo = lowerStr r.partNo
      ∧ lowerStr e.description = lowerStr r.description)

/-- The dedup filter of `insert_parts` (source lines 185-193), with the
session write-permission checkbox granted (lines 174-178; when it is not,
the function returns 0 without touching the batch). `existing` holds the
result of `SELECT partNo, description FROM parts`; if it is non-empty, the
incoming rows whose `dedupKey` occurs among the keys of the existing rows are
dropped (`~key_new.isin(key_exist)`); the surviving rows are appended and
their count returned. -/
def insert_parts (existing new_rows : List PartRow) : List PartRow × ℕ :=
  let key_exist := existing.map dedupKey
  let kept :=
    if existing.isEmpty then new_rows
    else new_rows.filter (fun r => decide (dedupKey r ∉ key_exist))
  (kept, kept.length)


/-! Helper lemmas (shared; not tied to any single claim). -/

lemma priceBOM_eq_ok {p : ProjectParams} {items : List LineItem}
    {lines : List PricedItem} {total : ℤ}
    (h : priceBOM p items = Except.ok (lines, total)) :
    lines = priceLines p items ∧ total = bomTotal p items := by
  by_cases hov : 0 < p.override_rate
  · simp [priceBOM, hov] at h
  · simp [priceBOM, hov] at h
    exact ⟨h.1.symm, h.2.symm⟩

lemma roundHalfEven_zero : roundHalfEven 0 = 0 := by
  unfold roundHalfEven
  norm_num

lemma pyInt_intCast (n : ℤ) : pyInt (n : ℚ) = n := by
  unfold pyInt
  by_cases h : (0 : ℚ) ≤ (n : ℚ)
  · simp [h, Int.floor_intCast]
  · rw [if_neg h, show -((n : ℤ) : ℚ) = ((-n : ℤ) : ℚ) by push_cast; ring,
      Int.floor_intCast]
    ring

/-- C1: for a per_kwh line with `unitPricePerKWh = 0.05`, `quantity = 2`,
`projectCapacityKWh = 1000`, the claimed behavior under
`rateOverrideKWh = 0.10` (displayUnitPrice 100.00, amount 200) does not
happen: the pricing block raises `AttributeError` because `base_rate` was
rebound to a scalar Python float that has no `.round` method
(source lines 508-511). Without the override the per_kwh rule does hold:
displayUnitPrice `round(0.05 * 1000, 2) = 50.00`, amount 100, total 100. -/
theorem per_kwh_override_example :
    priceBOM ⟨1000, 0, 1/10⟩ [⟨"per_kwh", none, some (1/20), none, some 2⟩]
      = Except.error floatRoundError
  ∧ priceBOM ⟨1000, 0, 0⟩ [⟨"per_kwh", none, some (1/20), none, some 2⟩]
      = Except.ok ([⟨some 50, 100⟩], 100) := by
  constructor
  · simp [priceBOM]
  · have h1 : lowerStr "per_kwh" = "per_kwh" := by decide
    have hd : displayUnitPrice ⟨1000, 0, 0⟩
        ⟨"per_kwh", none, some (1/20), none, some 2⟩ = some 50 := by
      simp [displayUnitPrice, h1]
      unfold round2 roundHalfEven
      norm_num
    have ha : amountZ ⟨1000, 0, 0⟩
        ⟨"per_kwh", none, some (1/20), none, some 2⟩ = 100 := by
      unfold amountZ
      rw [hd]
      unfold roundHalfEven
      norm_num
    unfold priceBOM bomTotal priceLines priceItem
    simp only [List.map_cons, List.map_nil]
    rw [hd, ha]
    norm_num [pyInt]

/-- C2: the pricing computation is not total over well-typed input: with
any positive `rateOverrideKWh` (here 0.01) it raises `AttributeError`
(float object has no attribute round) at source line 511, even for a
batch consisting of a single plain fixed-price line. -/
theorem pricing_block_raises_on_positive_override :
    priceBOM ⟨500, 0, 1/100⟩ [⟨"fixed", some 10, none, none, some 1⟩]
      = Except.error floatRoundError := by
  simp [priceBOM]

/-- C3: `delete_part` does not cascade. Deleting part 1 from a store in
which bom_items row 1 references part 1 removes the parts row but leaves
the bom_items row in place, still carrying `partId = 1`: sqlite foreign-key
enforcement (and with it the declared `ON DELETE CASCADE`) is off because
`get_conn` never issues `PRAGMA foreign_keys = ON`. -/
theorem delete_part_leaves_dangling_item :
    delete_part ⟨[⟨1, "P-1", "widget"⟩], [⟨1, 1, 1, 1⟩]⟩ 1
      = ⟨[], [⟨1, 1, 1, 1⟩]⟩
  ∧ ((delete_part ⟨[⟨1, "P-1", "widget"⟩], [⟨1, 1, 1, 1⟩]⟩ 1).bom_items.any
      (fun bi => bi.partId == 1)) = true := by
  decide

/-- C9 counterexample: the catalog holds the pair (partNo "a",
description "b|c") and the batch brings the distinct pair
(partNo "a|b", description "c"), which does not occur in the catalog even
case-insensitively; yet `insert_parts` inserts 0 rows, because both pairs
flatten to the same dedup key string "a|b|c". -/
theorem insert_parts_dedup_key_collision :
    (insert_parts [⟨"a", "b|c"⟩] [⟨"a|b", "c"⟩]).2 = 0
  ∧ pairOccursCI ⟨"a|b", "c"⟩ [⟨"a", "b|c"⟩] = false
  ∧ (⟨"a|b", "c"⟩ : PartRow) ≠ (⟨"a", "b|c"⟩ : PartRow) := by
  refine ⟨by decide, by decide, by decide⟩

/-- C10: the three roundings of the pricing block are round-half-to-even:
an exact half rounds to 0 (not 1) at amount level, 1.5 rounds to 2, and at
two decimals a per_kwh or per_year product of exactly 0.125 displays as
0.12 (not 0.13). -/
theorem pricing_roundings_half_to_even :
    roundHalfEven (1/2 : ℚ) = 0
  ∧ roundHalfEven (3/2 : ℚ) = 2
  ∧ (priceItem ⟨0, 0, 0⟩ ⟨"fixed", some (1/2), none, none, some 1⟩).amount = 0
  ∧ (priceItem ⟨0, 0, 0⟩ ⟨"fixed", some (3/2), none, none, some 1⟩).amount = 2
  ∧ (priceItem ⟨100, 0, 0⟩
      ⟨"per_kwh", none, some (1/800), none, some 1⟩).displayUnitPrice
        = some (12/100)
  ∧ (priceItem ⟨0, 100, 0⟩
      ⟨"per_year", none, none, some (1/800), some 1⟩).displayUnitPrice
        = some (12/100) := by
  refine ⟨?_, ?_, ?_, ?_, ?_, ?_⟩
  · unfold roundHalfEven
    norm_num
  · unfold roundHalfEven
    norm_num
  · have e1 : displayUnitPrice ⟨0, 0, 0⟩
        ⟨"fixed", some (1/2), none, none, some 1⟩ = some (1/2) := by
      simp [displayUnitPrice]
    show ((amountZ _ _ : ℤ) : ℚ) = 0
    unfold amountZ
    rw [e1]
    unfold roundHalfEven
    norm_num
  · have e1 : displayUnitPrice ⟨0, 0, 0⟩
        ⟨"fixed", some (3/2), none, none, some 1⟩ = some (3/2) := by
      simp [displayUnitPrice]
    show ((amountZ _ _ : ℤ) : ℚ) = 2
    unfold amountZ
    rw [e1]
    unfold roundHalfEven
    norm_num
  · have h1 : lowerStr "per_kwh" = "per_kwh" := by decide
    show displayUnitPrice ⟨100, 0, 0⟩
      ⟨"per_kwh", none, some (1/800), none, some 1⟩ = some (12/100)
    simp [displayUnitPrice, h1]
    unfold round2 roundHalfEven
    norm_num
  · have h2 : lowerStr "per_year" = "per_year" := by decide
    show displayUnitPrice ⟨0, 100, 0⟩
      ⟨"per_year", none, none, some (1/800), some 1⟩ = some (12/100)
    simp [displayUnitPrice, h2]
    unfold round2 roundHalfEven
    norm_num

/-! Further shared helper lemmas. -/

lemma displayUnitPrice_else {p : ProjectParams} {it : LineItem}
    (h1 : ¬(lowerStr it.pricingModel = "per_kwh" ∧ 0 < p.proj_kwh))
    (h2 : ¬(lowerStr it.pricingModel = "per_year" ∧ 0 < p.proj_years)) :
    displayUnitPrice p it = it.unitPrice := by
  unfold displayUnitPrice
  rw [if_neg h1, if_neg h2]

lemma amountZ_of_display_none {p : ProjectParams} {it : LineItem}
    (h : displayUnitPrice p it = none) : amountZ p it = 0 := by
  unfold amountZ
  rw [h]
  show roundHalfEven (0 * it.qty.getD 0) = 0
  rw [zero_mul]
  exact roundHalfEven_zero

/-- C4: a line whose pricingModel lowercases to per_year, when
proj_years > 0 and the per-year rate is present, displays
`round(unitPricePerYear * projectYears, 2)`; concretely, a per_year line
with rate 1200, quantity 1, projectYears 3 prices at 3600.00 with
amount 3600 and total 3600. -/
theorem per_year_display_price (p : ProjectParams) (it : LineItem) (r : ℚ)
    (hm : lowerStr it.pricingModel = "per_year") (hy : 0 < p.proj_years)
    (hr : it.unitPricePerYear = some r) :
    (priceItem p it).displayUnitPrice = some (round2 (r * p.proj_years))
  ∧ priceBOM ⟨0, 3, 0⟩ [⟨"per_year", none, none, some 1200, some 1⟩]
      = Except.ok ([⟨some 3600, 3600⟩], 3600) := by
  constructor
  · show displayUnitPrice p it = _
    unfold displayUnitPrice
    rw [if_neg (by rintro ⟨hk, -⟩; rw [hm] at hk; exact absurd hk (by decide)),
      if_pos ⟨hm, hy⟩, hr]
    rfl
  · have h2 : lowerStr "per_year" = "per_year" := by decide
    have hd : displayUnitPrice ⟨0, 3, 0⟩
        ⟨"per_year", none, none, some 1200, some 1⟩ = some 3600 := by
      simp [displayUnitPrice, h2]
      unfold round2 roundHalfEven
      norm_num
    have ha : amountZ ⟨0, 3, 0⟩
        ⟨"per_year", none, none, some 1200, some 1⟩ = 3600 := by
      unfold amountZ
      rw [hd]
      unfold roundHalfEven
      norm_num
    unfold priceBOM bomTotal priceLines priceItem
    simp only [List.map_cons, List.map_nil]
    rw [hd, ha]
    norm_num [pyInt]

/-- C4 witness at the concrete per_year line of the claim. -/
theorem per_year_display_price_witness :
    (lowerStr "per_year" = "per_year" ∧ (0 : ℚ) < 3)
  ∧ (priceItem ⟨0, 3, 0⟩
        ⟨"per_year", none, none, some 1200, some 1⟩).displayUnitPrice
      = some (round2 (1200 * 3)) :=
  ⟨⟨by decide, by norm_num⟩,
    (per_year_display_price ⟨0, 3, 0⟩ ⟨"per_year", none, none, some 1200, some 1⟩
      1200 (by decide) (by norm_num) rfl).1⟩

/-- C5: a per_kwh line evaluated with projectCapacityKWh = 0 falls through
to the fixed rule: its display price is its stored unitPrice unchanged, and
when that unitPrice is absent the display stays absent and the amount is 0;
concretely a per_kwh line with capacity 0 and no stored unitPrice prices as
(none, 0) with total 0. -/
theorem per_kwh_zero_capacity_falls_through (p : ProjectParams)
    (it : LineItem) (hm : lowerStr it.pricingModel = "per_kwh")
    (hk : p.proj_kwh = 0) :
    ((priceItem p it).displayUnitPrice = it.unitPrice
  ∧ (it.unitPrice = none → (priceItem p it).amount = 0))
  ∧ priceBOM ⟨0, 0, 0⟩ [⟨"per_kwh", none, some (1/20), none, some 2⟩]
      = Except.ok ([⟨none, 0⟩], 0) := by
  have hdisp : displayUnitPrice p it = it.unitPrice :=
    displayUnitPrice_else
      (by rintro ⟨-, hpos⟩; rw [hk] at hpos; exact absurd hpos (by norm_num))
      (by rintro ⟨hy, -⟩; rw [hm] at hy; exact absurd hy (by decide))
  refine ⟨⟨hdisp, fun hnone => ?_⟩, ?_⟩
  · show ((amountZ p it : ℤ) : ℚ) = 0
    rw [amountZ_of_display_none (hdisp.trans hnone)]
    norm_num
  · have hd : displayUnitPrice ⟨0, 0, 0⟩
        ⟨"per_kwh", none, some (1/20), none, some 2⟩ = none := by
      simp [displayUnitPrice]
    have ha : amountZ ⟨0, 0, 0⟩
        ⟨"per_kwh", none, some (1/20), none, some 2⟩ = 0 :=
      amountZ_of_display_none hd
    unfold priceBOM bomTotal priceLines priceItem
    simp only [List.map_cons, List.map_nil]
    rw [hd, ha]
    norm_num [pyInt]

/-- C5 witness at a per_kwh line carrying a stored unitPrice of 77, with
capacity 0. -/
theorem per_kwh_zero_capacity_falls_through_witness :
    (lowerStr "per_kwh" = "per_kwh"
  ∧ (ProjectParams.mk 0 0 0).proj_kwh = 0)
  ∧ (priceItem ⟨0, 0, 0⟩
        ⟨"per_kwh", some 77, some (1/20), none, some 2⟩).displayUnitPrice
      = some 77 :=
  ⟨⟨by decide, rfl⟩,
    ((per_kwh_zero_capacity_falls_through ⟨0, 0, 0⟩
      ⟨"per_kwh", some 77, some (1/20), none, some 2⟩
      (by decide) rfl).1).1⟩

/-- C6: every line amount is `round(displayUnitPrice_or_0 * qty_or_0, 0)`
(unit price rounds to 2 decimals inside the branches, the amount to 0
decimals); a null per-kwh rate in the per_kwh branch, and a null stored
unitPrice in the fixed fall-through, are treated as 0 for the amount while
the output displayUnitPrice stays absent rather than 0. -/
theorem amount_formula (p : ProjectParams) (it : LineItem) :
    (priceItem p it).amount
      = ((roundHalfEven
          (((priceItem p it).displayUnitPrice).getD 0 * it.qty.getD 0) : ℤ) : ℚ)
  ∧ (lowerStr it.pricingModel = "per_kwh" → 0 < p.proj_kwh →
      it.unitPricePerKWh = none →
      (priceItem p it).displayUnitPrice = none ∧ (priceItem p it).amount = 0)
  ∧ (it.unitPrice = none →
      lowerStr it.pricingModel ≠ "per_kwh" →
      lowerStr it.pricingModel ≠ "per_year" →
      (priceItem p it).displayUnitPrice = none
        ∧ (priceItem p it).amount = 0) := by
  refine ⟨rfl, fun hm hk hr => ?_, fun hu h1 h2 => ?_⟩
  · have hd : displayUnitPrice p it = none := by
      unfold displayUnitPrice
      rw [if_pos ⟨hm, hk⟩, hr]
      rfl
    refine ⟨hd, ?_⟩
    show ((amountZ p it : ℤ) : ℚ) = 0
    rw [amountZ_of_display_none hd]
    norm_num
  · have hd : displayUnitPrice p it = none := by
      rw [displayUnitPrice_else (fun hc => h1 hc.1) (fun hc => h2 hc.1)]
      exact hu
    refine ⟨hd, ?_⟩
    show ((amountZ p it : ℤ) : ℚ) = 0
    rw [amountZ_of_display_none hd]
    norm_num

/-- C6 witness at a per_kwh line with a null rate under capacity 800. -/
theorem amount_formula_witness :
    (lowerStr "per_kwh" = "per_kwh" ∧ (0 : ℚ) < 800)
  ∧ (priceItem ⟨800, 0, 0⟩
       ⟨"per_kwh", some 5, none, none, some 4⟩).displayUnitPrice = none
  ∧ (priceItem ⟨800, 0, 0⟩ ⟨"per_kwh", some 5, none, none, some 4⟩).amount = 0 :=
  ⟨⟨by decide, by norm_num⟩,
    (amount_formula ⟨800, 0, 0⟩ ⟨"per_kwh", some 5, none, none, some 4⟩).2.1
      (by decide) (by norm_num) rfl⟩

/-- C7: whenever the pricing block completes, the reported total is the
integer cast of the sum of the amount column, and — because every amount is
itself an integer produced by `.round(0)` — it equals the exact integer sum
of the per-line amounts; on an empty line-item sequence the total formula
yields 0. -/
theorem total_is_integer_sum (p : ProjectParams) (items : List LineItem)
    (lines : List PricedItem) (total : ℤ)
    (h : priceBOM p items = Except.ok (lines, total)) :
    (total = pyInt ((lines.map PricedItem.amount).sum)
  ∧ total = (items.map (amountZ p)).sum)
  ∧ bomTotal p [] = 0 := by
  obtain ⟨hl, ht⟩ := priceBOM_eq_ok h
  subst hl
  subst ht
  refine ⟨⟨rfl, ?_⟩, ?_⟩
  · show pyInt (((items.map (priceItem p)).map PricedItem.amount).sum)
      = (items.map (amountZ p)).sum
    rw [List.map_map]
    calc pyInt ((items.map (PricedItem.amount ∘ priceItem p)).sum)
        = pyInt ((((items.map (amountZ p)).map (fun n : ℤ => (n : ℚ)))).sum) := by
          rw [List.map_map]
          rfl
      _ = pyInt ((((items.map (amountZ p)).sum : ℤ) : ℚ)) := by
          rw [Int.cast_list_sum]
      _ = (items.map (amountZ p)).sum := pyInt_intCast _
  · show pyInt (List.sum (List.map _ (List.map _ []))) = 0
    simp [pyInt]

/-- C7 witness: the pricing block on the empty sequence with all parameters
0 returns the empty priced list and total 0. -/
theorem total_is_integer_sum_witness :
    priceBOM ⟨0, 0, 0⟩ [] = Except.ok ([], 0)
  ∧ ((0 : ℤ) = pyInt ((([] : List PricedItem).map PricedItem.amount).sum)
      ∧ (0 : ℤ) = (([] : List LineItem).map (amountZ ⟨0, 0, 0⟩)).sum)
  ∧ bomTotal ⟨0, 0, 0⟩ [] = 0 := by
  have h : priceBOM ⟨0, 0, 0⟩ [] = Except.ok ([], 0) := by
    simp [priceBOM, bomTotal, priceLines, pyInt]
  exact ⟨h, total_is_integer_sum ⟨0, 0, 0⟩ [] [] 0 h⟩

/-- C8: a line whose pricingModel lowercases to neither per_kwh nor
per_year keeps its stored unitPrice as display price (treated as fixed);
whether the block completes does not depend on the lines at all, so one
unrecognized line never fails the computation; and recognition is
case-insensitive: an uppercase PER_KWH or mixed-case Per_Year line is
priced by its scaling rule, not as fixed. -/
theorem unknown_model_treated_as_fixed (p : ProjectParams) (it : LineItem)
    (h1 : lowerStr it.pricingModel ≠ "per_kwh")
    (h2 : lowerStr it.pricingModel ≠ "per_year") :
    (priceItem p it).displayUnitPrice = it.unitPrice
  ∧ (∀ items1 items2 : List LineItem,
      (priceBOM p items1).isOk = (priceBOM p items2).isOk)
  ∧ priceItem ⟨1000, 0, 0⟩ ⟨"PER_KWH", some 7, some (1/20), none, some 1⟩
      = ⟨some 50, 50⟩
  ∧ priceItem ⟨0, 3, 0⟩ ⟨"Per_Year", some 7, none, some 1200, some 1⟩
      = ⟨some 3600, 3600⟩ := by
  refine ⟨?_, ?_, ?_, ?_⟩
  · exact displayUnitPrice_else (fun hc => h1 hc.1) (fun hc => h2 hc.1)
  · intro items1 items2
    by_cases hov : 0 < p.override_rate
    · simp [priceBOM, hov]
    · simp only [priceBOM, if_neg hov]
      rfl
  · have hk : lowerStr "PER_KWH" = "per_kwh" := by decide
    have hd : displayUnitPrice ⟨1000, 0, 0⟩
        ⟨"PER_KWH", some 7, some (1/20), none, some 1⟩ = some 50 := by
      simp [displayUnitPrice, hk]
      unfold round2 roundHalfEven
      norm_num
    have ha : amountZ ⟨1000, 0, 0⟩
        ⟨"PER_KWH", some 7, some (1/20), none, some 1⟩ = 50 := by
      unfold amountZ
      rw [hd]
      unfold roundHalfEven
      norm_num
    unfold priceItem
    rw [hd, ha]
    norm_num
  · have hy : lowerStr "Per_Year" = "per_year" := by decide
    have hknot : lowerStr "Per_Year" = "per_kwh" → False := by decide
    have hd : displayUnitPrice ⟨0, 3, 0⟩
        ⟨"Per_Year", some 7, none, some 1200, some 1⟩ = some 3600 := by
      simp [displayUnitPrice, hy]
      unfold round2 roundHalfEven
      norm_num
    have ha : amountZ ⟨0, 3, 0⟩
        ⟨"Per_Year", some 7, none, some 1200, some 1⟩ = 3600 := by
      unfold amountZ
      rw [hd]
      unfold roundHalfEven
      norm_num
    unfold priceItem
    rw [hd, ha]
    norm_num

/-- C8 witness at a line with the unrecognized model "subscription". -/
theorem unknown_model_treated_as_fixed_witness :
    (lowerStr "subscription" ≠ "per_kwh" ∧ lowerStr "subscription" ≠ "per_year")
  ∧ (priceItem ⟨1000, 5, 0⟩
      ⟨"subscription", some 42, some 1, some 2, some 3⟩).displayUnitPrice
        = some 42 :=
  ⟨⟨by decide, by decide⟩,
    (unknown_model_treated_as_fixed ⟨1000, 5, 0⟩
      ⟨"subscription", some 42, some 1, some 2, some 3⟩
      (by decide) (by decide)).1⟩

/-- C9 amended: with a non-empty catalog, `insert_parts` keeps exactly the
incoming rows whose lowercased "partNo|description" key string differs from
the key of every existing row (so case-insensitively equal pairs are always
skipped, but — as the counterexample shows — a distinct pair can also be
skipped when a "|" inside a field makes two pairs share one key); with an
empty catalog every row is kept; the returned count is the number of kept
rows. -/
theorem insert_parts_dedup_amended (existing incoming : List PartRow)
    (r : PartRow) (h : r ∈ incoming) :
    (r ∈ (insert_parts existing incoming).1 ↔
      existing = [] ∨ ∀ e ∈ existing, dedupKey e ≠ dedupKey r)
  ∧ (insert_parts existing incoming).2
      = (insert_parts existing incoming).1.length
  ∧ (∀ e : PartRow, pairOccursCI r [e] = true → dedupKey e = dedupKey r) := by
  refine ⟨?_, rfl, ?_⟩
  · rcases existing with _ | ⟨e0, es⟩
    · simp [insert_parts, h]
    · show r ∈ List.filter _ incoming ↔ _
      rw [List.mem_filter]
      simp only [h, true_and, decide_eq_true_eq]
      constructor
      · intro hnot
        right
        intro e he hdk
        exact hnot (List.mem_map.mpr ⟨e, he, hdk⟩)
      · rintro (hc | hall)
        · exact absurd hc (List.cons_ne_nil _ _)
        · intro hmem
          obtain ⟨e, he, hdk⟩ := List.mem_map.mp hmem
          exact hall e he hdk
  · intro e hocc
    simp only [pairOccursCI, List.any_cons, List.any_nil, Bool.or_false,
      decide_eq_true_eq] at hocc
    obtain ⟨ha, hb⟩ := hocc
    unfold dedupKey
    rw [ha, hb]

/-- C9 witness: a batch row whose pair shares no key with the single
catalog row is kept, and the count equals the kept length. -/
theorem insert_parts_dedup_amended_witness :
    ((⟨"x", "z"⟩ : PartRow) ∈ [(⟨"x", "z"⟩ : PartRow)])
  ∧ (((⟨"x", "z"⟩ : PartRow) ∈ (insert_parts [⟨"x", "y"⟩] [⟨"x", "z"⟩]).1 ↔
        [(⟨"x", "y"⟩ : PartRow)] = []
          ∨ ∀ e ∈ [(⟨"x", "y"⟩ : PartRow)], dedupKey e ≠ dedupKey ⟨"x", "z"⟩)
    ∧ (insert_parts [⟨"x", "y"⟩] [⟨"x", "z"⟩]).2
        = (insert_parts [⟨"x", "y"⟩] [⟨"x", "z"⟩]).1.length
    ∧ (∀ e : PartRow, pairOccursCI ⟨"x", "z"⟩ [e] = true →
        dedupKey e = dedupKey ⟨"x", "z"⟩)) :=
  ⟨by decide,
    insert_parts_dedup_amended [⟨"x", "y"⟩] [⟨"x", "z"⟩] ⟨"x", "z"⟩ (by decide)⟩

end PartsBom
